import Mathlib

set_option maxHeartbeats 1000000

/-
Verification of haystack_elasticsearch/elasticsearch5.py
(Elasticsearch5SearchBackend and its query compiler / response decoder).

The Python dict/list query documents are embedded as the inductive `Json`
type below; Python dicts are association lists that keep insertion order,
which matches how the source builds and the engine consumes these
documents.  Machine integers do not overflow in this code (Python ints are
unbounded), so `Int`/`Nat` are used directly.  Fallible code paths
(exceptions) are embedded with `Option`/`Outcome`.
-/

/-- JSON-like documents: the nested dict/list structures the backend builds
for the engine and receives back.  An object is an insertion-ordered list of
key/value pairs, exactly like the Python dict literals in the source. -/
inductive Json where
  | str : String → Json
  | num : Int → Json
  | bool : Bool → Json
  | arr : List Json → Json
  | obj : List (String × Json) → Json

/-- haystack.constants.DJANGO_CT, the document field holding the django
content-type tag of the indexed model. -/
def DJANGO_CT : String := "django_ct"

/-- Embedding of Elasticsearch5SearchBackend._build_search_kwargs_query
(elasticsearch5.py lines 197-204).  The Python body only assigns the local
variable `result` inside the `if filters:` branch and then executes
`return result`; when `filters` is the empty list the branch is skipped and
the `return` reads an unassigned local, raising UnboundLocalError.  That
error outcome is embedded as `none`.  With one filter the filter clause is
the filter itself; with two or more it is a bool/must group over the whole
list. -/
def build_search_kwargs_query (filters : List Json) (query : Json) : Option Json :=
  match filters with
  | [] => none
  | [f] => some (Json.obj [("bool", Json.obj [("must", query), ("filter", f)])])
  | fs => some (Json.obj [("bool", Json.obj [("must", query),
      ("filter", Json.obj [("bool", Json.obj [("must", Json.arr fs)])])])])

/-- Python str.lower() restricted to the ASCII unit names this code handles
("day", "month", "year", ...): lowercase every character.  Written over the
character list so that it evaluates inside the kernel. -/
def lowerStr (s : String) : String := String.mk (s.data.map Char.toLower)

/-- Python slicing s[:n]: the first n characters of s. -/
def takeChars (s : String) (n : Nat) : String := String.mk (s.data.take n)

/-- Embedding of the interval computation of the date-facet branch of
_build_search_kwargs_facets (elasticsearch5.py lines 142-148).
`gapAmount = none` models a date-facet spec without a gap_amount key, for
which `value.get("gap_amount", 1)` yields the default 1.  The interval is
the lowercased gap_by unit; when the amount is not 1 and the lowercased
unit is neither "month" nor "year", the amount is put in front of the first
character of the unit. -/
def dateFacetInterval (gapBy : String) (gapAmount : Option Int) : String :=
  let interval := lowerStr gapBy
  if gapAmount.getD 1 ≠ 1 ∧ ¬ (interval = "month" ∨ interval = "year") then
    toString (gapAmount.getD 1) ++ takeChars interval 1
  else
    interval

/-- Python dict assignment d[k] = v on an insertion-ordered association
list: replace the value in place if the key exists, else append the pair. -/
def updateAssoc {α : Type} (k : String) (v : α) : List (String × α) → List (String × α)
  | [] => [(k, v)]
  | (k2, v2) :: rest => if k2 = k then (k, v) :: rest else (k2, v2) :: updateAssoc k v rest

/-- Python dict.update(upd): apply every assignment of upd to base in
order. -/
def dictUpdate (base upd : List (String × Json)) : List (String × Json) :=
  upd.foldl (fun acc kv => updateAssoc kv.1 kv.2 acc) base

/-- Embedding of the terms-facet branch of _build_search_kwargs_facets
(elasticsearch5.py lines 118-138).  The parameters are the values the
Python code pops out of extra_options: the "order" hint (recorded only in
the meta block, lines 127-128, never compiled into the terms clause), the
"global_scope" flag, the optional "facet_filter", and the residual extra
options that terms.update copies into the terms clause. -/
def buildTermsFacetOptions (resolvedField : String) (order : Option String)
    (globalScope : Bool) (facetFilter : Option Json)
    (extra : List (String × Json)) : Json :=
  let meta : List (String × Json) :=
    [("_type", Json.str "terms")] ++
      (match order with
       | some o => [("order", Json.str o)]
       | none => [])
  let termsBody : List (String × Json) :=
    dictUpdate [("field", Json.str resolvedField)] extra
  Json.obj ([("meta", Json.obj meta), ("terms", Json.obj termsBody)]
    ++ (if globalScope then [("global", Json.bool true)] else [])
    ++ (match facetFilter with
        | some f => [("facet_filter", f)]
        | none => []))

/-- A scalar value appearing as an aggregation bucket key in a raw engine
response: the key of a terms bucket is a term (string), the key of a
date-histogram bucket is a millisecond epoch integer. -/
inductive JVal where
  | str : String → JVal
  | num : Int → JVal
deriving DecidableEq

/-- One bucket of a raw aggregation response: its key and its doc_count. -/
structure RawBucket where
  key : JVal
  doc_count : Nat
deriving DecidableEq

/-- One aggregation entry of a raw engine response, holding the fields the
decoder _process_results reads: the meta._type discriminator written by the
compiler and echoed back by the engine, the optional meta.order hint, the
bucket list (read by the terms and date_histogram branches) and the
top-level doc_count (read by the query branch). -/
structure RawAgg where
  metaType : String
  metaOrder : Option String
  buckets : List RawBucket
  doc_count : Nat
deriving DecidableEq

/-- The part of a raw engine response that the ES5 override of
_process_results reads: the optional "aggregations" section, an
insertion-ordered mapping from facet name to aggregation entry (its keys
are unique, being JSON object keys).  The hits are handled by the base
class and are outside this embedding. -/
structure RawResponse where
  aggregations : Option (List (String × RawAgg))
deriving DecidableEq

/-- The sort key used at elasticsearch5.py line 319:
sorted(..., key=lambda x: x[1]) orders (term, count) pairs by count,
ascending. -/
def byCount (a b : JVal × Nat) : Prop := a.2 ≤ b.2

instance : DecidableRel byCount := fun a b => Nat.decLe a.2 b.2

instance : IsTotal (JVal × Nat) byCount := ⟨fun a b => Nat.le_total a.2 b.2⟩

instance : IsTrans (JVal × Nat) byCount := ⟨fun _ _ _ h1 h2 => Nat.le_trans h1 h2⟩

/-- Embedding of the terms branch of _process_results (elasticsearch5.py
lines 315-320): emit (key, doc_count) pairs in bucket order; when the meta
block carries order = "reverse_count", re-sort the pairs ascending by
count.  Python sorted is a stable ascending sort, embedded as the stable
List.insertionSort. -/
def decodeTerms (metaOrder : Option String) (buckets : List RawBucket) : List (JVal × Nat) :=
  let pairs := buckets.map fun b => (b.key, b.doc_count)
  match metaOrder with
  | some o => if o = "reverse_count" then List.insertionSort byCount pairs else pairs
  | none => pairs

/-- A decoded timestamp, represented by the epoch-second value handed to
datetime.datetime.utcfromtimestamp; the calendar rendering performed by the
datetime library is injective in this argument, so the epoch value fully
determines the timestamp.  Rational numbers model Python true division
exactly. -/
structure UtcTimestamp where
  epochSeconds : Rat
deriving DecidableEq

/-- datetime.datetime.utcfromtimestamp, represented by its epoch-second
argument (see UtcTimestamp). -/
def utcfromtimestamp (secs : Rat) : UtcTimestamp := ⟨secs⟩

/-- The key arithmetic of the date-histogram branch (elasticsearch5.py line
324): individual["key"] / 1000 under true division (this module activates
"from __future__ import division").  A non-numeric key would raise a
TypeError in Python, embedded as none. -/
def bucketKeySeconds : JVal → Option Rat
  | JVal.num k => some ((k : Rat) / 1000)
  | JVal.str _ => none

/-- Embedding of the date_histogram branch of _process_results
(elasticsearch5.py lines 321-324): each bucket key, a millisecond epoch
value, is divided by 1000 and converted with utcfromtimestamp, paired with
the bucket doc_count. -/
def decodeDates : List RawBucket → Option (List (UtcTimestamp × Nat))
  | [] => some []
  | b :: bs =>
    match bucketKeySeconds b.key with
    | some s => (decodeDates bs).map (fun rest => (utcfromtimestamp s, b.doc_count) :: rest)
    | none => none

/-- The three facet mappings built by _process_results when an
aggregations section is present (elasticsearch5.py lines 307-311):
fields, dates and queries, each an insertion-ordered mapping keyed by facet
name. -/
structure FacetsStruct where
  fields : List (String × List (JVal × Nat))
  dates : List (String × List (UtcTimestamp × Nat))
  queries : List (String × Nat)
deriving DecidableEq

/-- The value stored under results["facets"]: the Python code either leaves
the initial empty dict (no aggregations section, line 305) or replaces it
with the dict holding the three mappings (line 307).  The two shapes are
different dict values, so they are distinct constructors here. -/
inductive Facets where
  | empty : Facets
  | full : FacetsStruct → Facets
deriving DecidableEq

/-- The membership test of the dispatch chain of _process_results: an
aggregation entry is recognized when its meta._type tag is "terms",
"date_histogram" or "query". -/
def recognizedAggType (t : String) : Bool :=
  t == "terms" || t == "date_histogram" || t == "query"

/-- Embedding of the aggregation loop of _process_results
(elasticsearch5.py lines 313-326): walk the aggregation entries in order,
dispatch on meta._type, and fill the three mappings; an entry with any
other tag falls through the if/elif chain and is skipped.  `none` models a
Python exception escaping the loop (only the date branch can raise here,
on a non-numeric bucket key). -/
def decodeAggs : List (String × RawAgg) → FacetsStruct → Option FacetsStruct
  | [], acc => some acc
  | (name, info) :: rest, acc =>
    if info.metaType = "terms" then
      decodeAggs rest { acc with fields := updateAssoc name (decodeTerms info.metaOrder info.buckets) acc.fields }
    else if info.metaType = "date_histogram" then
      match decodeDates info.buckets with
      | some ds => decodeAggs rest { acc with dates := updateAssoc name ds acc.dates }
      | none => none
    else if info.metaType = "query" then
      decodeAggs rest { acc with queries := updateAssoc name info.doc_count acc.queries }
    else
      decodeAggs rest acc

/-- Embedding of the facet part of _process_results (elasticsearch5.py
lines 305-327): without an aggregations section the facets value stays the
initial empty dict; with one, the three mappings are created empty and then
filled by the aggregation loop. -/
def processResultsFacets (raw : RawResponse) : Option Facets :=
  match raw.aggregations with
  | none => some Facets.empty
  | some aggs => (decodeAggs aggs ⟨[], [], []⟩).map Facets.full

/-- The raw_results = {} fallback used by more_like_this on a silenced
transport failure (elasticsearch5.py line 295): an empty dict has no
aggregations key. -/
def emptyRawResults : RawResponse := ⟨none⟩

/-- A django model class as far as this module observes it: an app label
and a model name. -/
structure DjangoModel where
  appLabel : String
  modelName : String
deriving DecidableEq

/-- haystack.utils.get_model_ct: the canonical content-type name
"app_label.model_name" of a model. -/
def get_model_ct (m : DjangoModel) : String := m.appLabel ++ "." ++ m.modelName

/-- Lexicographic comparison of character lists by code point: the order
Python sorted() uses on strings. -/
def charsLe : List Char → List Char → Bool
  | [], _ => true
  | _ :: _, [] => false
  | a :: as, b :: bs => if a < b then true else if b < a then false else charsLe as bs

/-- The string order of Python sorted() (elasticsearch5.py line 258),
as a relation. -/
def strLe (a b : String) : Prop := charsLe a.data b.data = true

instance : DecidableRel strLe := fun a b => instDecidableEqBool (charsLe a.data b.data) true

/-- Embedding of the model_choices computation of more_like_this
(elasticsearch5.py lines 257-264): with an explicit non-empty model list,
sorted(get_model_ct(model) for model in models) - a stable sort of the
canonical names, keeping duplicates; otherwise the registered-model list
when the limit policy is active, else no restriction.  `registeredModels`
stands for self.build_models_list(), provided by the base backend. -/
def mltModelChoices (models : Option (List DjangoModel)) (limitToRegisteredModels : Bool)
    (registeredModels : List String) : List String :=
  match models with
  | some ms =>
    if ms.length > 0 then List.insertionSort strLe (ms.map get_model_ct)
    else if limitToRegisteredModels then registeredModels else []
  | none => if limitToRegisteredModels then registeredModels else []

/-- Embedding of elasticsearch5.py lines 254-255: a None
limit_to_registered_models argument is replaced by the
HAYSTACK_LIMIT_TO_REGISTERED_MODELS setting, defaulting to True. -/
def resolveLimitToRegistered (param : Option Bool) (settingValue : Option Bool) : Bool :=
  match param with
  | some b => b
  | none => settingValue.getD true

/-- The base more-like-this clause of more_like_this (elasticsearch5.py
lines 233-242), without its outer "query" key. -/
def mlt_inner (fieldName docId : String) : Json :=
  Json.obj [("more_like_this", Json.obj
    [("fields", Json.arr [Json.str fieldName]),
     ("like", Json.arr [Json.obj [("_id", Json.str docId)]])])]

/-- The additional_filter narrowing query of more_like_this
(elasticsearch5.py lines 247-251). -/
def additional_filter (s : String) : Json :=
  Json.obj [("query_string", Json.obj [("query", Json.str s)])]

/-- The model_filter narrowing query of more_like_this (elasticsearch5.py
line 267). -/
def model_filter (modelChoices : List String) : Json :=
  Json.obj [("terms", Json.obj [(DJANGO_CT, Json.arr (modelChoices.map Json.str))])]

/-- The narrow_queries accumulation of more_like_this (elasticsearch5.py
lines 244-268): the additional query string when it is truthy and not the
match-everything sentinel "*:*", then the model restriction when the
model-choice list is non-empty. -/
def mltNarrowQueries (additionalQueryString : Option String) (modelChoices : List String) : List Json :=
  (match additionalQueryString with
   | some s => if s ≠ "" ∧ s ≠ "*:*" then [additional_filter s] else []
   | none => []) ++
  (if modelChoices.length > 0 then [model_filter modelChoices] else [])

/-- Embedding of the query document assembly of more_like_this
(elasticsearch5.py lines 233-282): the bare clause when no narrowing query
accumulated, otherwise the bool wrapper with must = the base clause and
filter = a bool/must group over the narrowing queries. -/
def mlt_query_body (fieldName docId : String) (aqs : Option String) (modelChoices : List String) : Json :=
  let narrow := mltNarrowQueries aqs modelChoices
  if narrow.length > 0 then
    Json.obj [("query", Json.obj [("bool", Json.obj
      [("must", mlt_inner fieldName docId),
       ("filter", Json.obj [("bool", Json.obj [("must", Json.arr narrow)])])])])]
  else
    Json.obj [("query", mlt_inner fieldName docId)]

/-- The outcome of an operation that may let an engine TransportError
escape to the caller. -/
inductive Outcome (α : Type) where
  | ok : α → Outcome α
  | raised : Outcome α

/-- Modelled from the spec: the silently_fail flag consulted at
elasticsearch5.py lines 65 and 290 is owned by the generic backend base
class (haystack_elasticsearch/elasticsearch.py and its haystack base
class), which is not part of this file; the spec states the propagation
policy as "TransportFailure is either re-raised (default) or, under a
silently fail configuration mode, logged ... and converted to an
empty/neutral result", so the default is modelled as false. -/
def silentlyFailDefault : Bool := false

/-- Embedding of the transport handling of more_like_this
(elasticsearch5.py lines 230-297).  `searchOutcome` is what conn.search
produced: some raw response, or none when it raised a TransportError.  On
a failure the error is re-raised unless silently_fail is set, in which
case the error is logged and an empty raw response is processed instead.
Only the facet decoding of _process_results is embedded (the hit decoding
is base-class code). -/
def moreLikeThisRun (silentlyFail : Bool) (searchOutcome : Option RawResponse) : Outcome (Option Facets) :=
  match searchOutcome with
  | some raw => Outcome.ok (processResultsFacets raw)
  | none => if silentlyFail then Outcome.ok (processResultsFacets emptyRawResults) else Outcome.raised

/-- The cached-state fields of the backend that clear resets
(elasticsearch5.py lines 45-47): setup_complete, existing_mapping and
content_field_name. -/
structure BackendState where
  setupComplete : Bool
  existingMapping : List (String × String)
  contentFieldName : Option String
deriving DecidableEq

/-- The state written by a full clear (elasticsearch5.py lines 45-47):
setup_complete = False, existing_mapping = empty, content_field_name =
None. -/
def clearedState : BackendState := ⟨false, [], none⟩

/-- The condition of the engine during a clear call, as the elasticsearch
client surfaces it.  `missingIndex` is the documented client behaviour for
an absent index: indices.delete called with ignore=404 returns normally,
while search (and hence the scroll scan feeding the bulk delete) raises a
404 NotFoundError, a TransportError subclass.  `fails` is any other
transport error raised by whichever call runs first. -/
inductive Transport where
  | succeeds : Transport
  | missingIndex : Transport
  | fails : Transport

/-- Embedding of Elasticsearch5SearchBackend.clear (elasticsearch5.py
lines 32-72).  The Bool in the result records whether the deletion work
ran to completion.  models = none is the full clear: indices.delete with
ignore=404 (so a missing index raises nothing) followed by the cache
reset; a non-404 failure skips the reset.  models = some is the subset
clear: scan, bulk delete and refresh, none of which passes any ignore
parameter, so a missing index surfaces as a TransportError.  Either way a
TransportError is re-raised unless silently_fail is set, in which case it
is only logged. -/
def clearRun (silentlyFail : Bool) (models : Option (List DjangoModel)) (t : Transport)
    (st : BackendState) : Outcome (BackendState × Bool) :=
  match models with
  | none =>
    match t with
    | Transport.succeeds => Outcome.ok (clearedState, true)
    | Transport.missingIndex => Outcome.ok (clearedState, true)
    | Transport.fails => if silentlyFail then Outcome.ok (st, false) else Outcome.raised
  | some _ =>
    match t with
    | Transport.succeeds => Outcome.ok (st, true)
    | Transport.missingIndex => if silentlyFail then Outcome.ok (st, false) else Outcome.raised
    | Transport.fails => if silentlyFail then Outcome.ok (st, false) else Outcome.raised

/-- Helper: charsLe is total. -/
theorem charsLe_total : ∀ a b : List Char, charsLe a b = true ∨ charsLe b a = true
  | [], _ => Or.inl rfl
  | _ :: _, [] => Or.inr rfl
  | a :: as, b :: bs => by
    rcases lt_trichotomy a b with h | h | h
    · left; simp [charsLe, h]
    · subst h
      rcases charsLe_total as bs with ih | ih
      · left; simp [charsLe, lt_irrefl, ih]
      · right; simp [charsLe, lt_irrefl, ih]
    · right; simp [charsLe, h]

/-- Helper: charsLe is transitive. -/
theorem charsLe_trans : ∀ a b c : List Char,
    charsLe a b = true → charsLe b c = true → charsLe a c = true
  | [], _, _, _, _ => rfl
  | _ :: _, [], _, h, _ => by simp [charsLe] at h
  | _ :: _, _ :: _, [], _, h2 => by simp [charsLe] at h2
  | a :: as, b :: bs, c :: cs, h1, h2 => by
    rcases lt_trichotomy a b with hab | hab | hab
    · rcases lt_trichotomy b c with hbc | hbc | hbc
      · simp [charsLe, lt_trans hab hbc]
      · subst hbc; simp [charsLe, hab]
      · simp [charsLe, hbc, asymm hbc] at h2
    · subst hab
      rcases lt_trichotomy a c with hac | hac | hac
      · simp [charsLe, hac]
      · subst hac
        simp only [charsLe, if_neg (lt_irrefl a)] at h1 h2 ⊢
        exact charsLe_trans as bs cs h1 h2
      · simp [charsLe, hac, asymm hac] at h2
    · simp [charsLe, hab, asymm hab] at h1

/-- C1: the zero/one/many filter combination behaviour of
_build_search_kwargs_query.  With an empty filter list the function faults
(UnboundLocalError, embedded as none) instead of returning the relevance
query; with exactly one filter the filter clause is that filter itself;
with two or more it is a bool/must group over the list. -/
theorem claim_C1_filter_shapes :
    (∀ query : Json, build_search_kwargs_query [] query = none) ∧
    (∀ query f : Json, build_search_kwargs_query [f] query =
        some (Json.obj [("bool", Json.obj [("must", query), ("filter", f)])])) ∧
    (∀ (query f1 f2 : Json) (fs : List Json),
        build_search_kwargs_query (f1 :: f2 :: fs) query =
          some (Json.obj [("bool", Json.obj [("must", query),
            ("filter", Json.obj [("bool", Json.obj [("must", Json.arr (f1 :: f2 :: fs))])])])])) :=
  ⟨fun _ => rfl, fun _ _ => rfl, fun _ _ _ _ => rfl⟩

/-- C2 counterexample: decoding a raw response with no aggregations section
leaves the initial empty facets dict, which is not the dict holding the
three empty mappings fields/dates/queries. -/
theorem claim_C2_counterexample :
    processResultsFacets ⟨none⟩ = some Facets.empty ∧
    some Facets.empty ≠ some (Facets.full ⟨[], [], []⟩) := by
  exact ⟨rfl, by decide⟩

/-- C2 amended: without an aggregations section the facets structure is
present but is the empty mapping (none of the three mappings exists); the
three mappings are created empty exactly when an aggregations section is
present, even an empty one. -/
theorem claim_C2_amended :
    processResultsFacets ⟨none⟩ = some Facets.empty ∧
    processResultsFacets ⟨some []⟩ = some (Facets.full ⟨[], [], []⟩) :=
  ⟨rfl, rfl⟩

/-- C3 counterexample: passing the same model twice to the similarity query
builder compiles a model-choice list in which the canonical name
"app.m" appears twice, so the restriction is sorted but not deduplicated. -/
theorem claim_C3_counterexample :
    mltModelChoices (some [⟨"app", "m"⟩, ⟨"app", "m"⟩]) true [] = ["app.m", "app.m"] ∧
    List.count "app.m" ["app.m", "app.m"] = 2 := by
  constructor
  · decide
  · decide

/-- C3 amended: for every non-empty explicit model list, the compiled type
restriction is the list of canonical type names sorted ascending in the
string order, and it is a permutation of the multiset of canonical names of
the given models - duplicates are preserved, not removed. -/
theorem claim_C3_amended (m : DjangoModel) (ms : List DjangoModel) (b : Bool)
    (reg : List String) :
    (mltModelChoices (some (m :: ms)) b reg).Sorted strLe ∧
    (mltModelChoices (some (m :: ms)) b reg).Perm ((m :: ms).map get_model_ct) := by
  haveI hTot : IsTotal String strLe := ⟨fun x y => charsLe_total x.data y.data⟩
  haveI hTrans : IsTrans String strLe := ⟨fun x y z h1 h2 => charsLe_trans x.data y.data z.data h1 h2⟩
  have hpos : (m :: ms).length > 0 := Nat.succ_pos ms.length
  have hchoices : mltModelChoices (some (m :: ms)) b reg
      = List.insertionSort strLe ((m :: ms).map get_model_ct) := by
    simp only [mltModelChoices, hpos, if_true]
  rw [hchoices]
  exact ⟨List.sorted_insertionSort strLe _, List.perm_insertionSort strLe _⟩

/-- C4: the compiled date-histogram interval is the lowercased gap unit
when the gap amount is 1 (or defaulted) or the lowercased unit is month or
year; otherwise it is the amount followed by the first character of the
lowercased unit.  In particular day with amount 2 compiles to "2d", month
with amount 3 to "month", year with amount 5 to "year". -/
theorem claim_C4_interval :
    (∀ (u : String) (a : Option Int),
        a.getD 1 = 1 ∨ lowerStr u = "month" ∨ lowerStr u = "year" →
        dateFacetInterval u a = lowerStr u) ∧
    (∀ (u : String) (a : Option Int),
        a.getD 1 ≠ 1 → lowerStr u ≠ "month" → lowerStr u ≠ "year" →
        dateFacetInterval u a = toString (a.getD 1) ++ takeChars (lowerStr u) 1) ∧
    dateFacetInterval "day" (some 2) = "2d" ∧
    dateFacetInterval "month" (some 3) = "month" ∧
    dateFacetInterval "year" (some 5) = "year" := by
  refine ⟨?_, ?_, by decide, by decide, by decide⟩
  · intro u a h
    have hneg : ¬ (a.getD 1 ≠ 1 ∧ ¬ (lowerStr u = "month" ∨ lowerStr u = "year")) := by
      rcases h with h | h | h <;> simp [h]
    simp only [dateFacetInterval]
    rw [if_neg hneg]
  · intro u a h1 h2 h3
    have hpos : a.getD 1 ≠ 1 ∧ ¬ (lowerStr u = "month" ∨ lowerStr u = "year") :=
      ⟨h1, by simp [h2, h3]⟩
    simp only [dateFacetInterval]
    rw [if_pos hpos]

/-- C4 witness: the two general branches of claim_C4_interval applied at
concrete inputs. -/
theorem claim_C4_interval_witness :
    dateFacetInterval "week" none = "week" ∧ dateFacetInterval "hour" (some 4) = "4h" := by
  constructor
  · have h := claim_C4_interval.1 "week" none (Or.inl rfl)
    exact h.trans (by decide)
  · have h := claim_C4_interval.2.1 "hour" (some 4) (by decide) (by decide) (by decide)
    exact h.trans (by decide)

/-- C5: a terms facet compiled with the ordering hint "reverse_count"
records the hint in the meta block; a decoded terms aggregation carrying
that metadata yields the bucket pairs re-sorted ascending by count (sorted
and a permutation of the bucket pairs); without the metadata the pairs
appear in bucket order.  Concretely, buckets (A,5),(B,2),(C,9) decode to
(B,2),(A,5),(C,9) under reverse_count, also through the whole decoder. -/
theorem claim_C5_reverse_count :
    (∀ (f : String) (ex : List (String × Json)),
        buildTermsFacetOptions f (some "reverse_count") false none ex =
          Json.obj [("meta", Json.obj [("_type", Json.str "terms"),
                                       ("order", Json.str "reverse_count")]),
                    ("terms", Json.obj (dictUpdate [("field", Json.str f)] ex))]) ∧
    (∀ bs : List RawBucket,
        (decodeTerms (some "reverse_count") bs).Sorted byCount ∧
        (decodeTerms (some "reverse_count") bs).Perm (bs.map fun b => (b.key, b.doc_count))) ∧
    (∀ bs : List RawBucket, decodeTerms none bs = bs.map fun b => (b.key, b.doc_count)) ∧
    decodeTerms (some "reverse_count")
        [⟨JVal.str "A", 5⟩, ⟨JVal.str "B", 2⟩, ⟨JVal.str "C", 9⟩] =
      [(JVal.str "B", 2), (JVal.str "A", 5), (JVal.str "C", 9)] ∧
    processResultsFacets ⟨some [("author",
        ⟨"terms", some "reverse_count",
         [⟨JVal.str "A", 5⟩, ⟨JVal.str "B", 2⟩, ⟨JVal.str "C", 9⟩], 0⟩)]⟩ =
      some (Facets.full ⟨[("author",
        [(JVal.str "B", 2), (JVal.str "A", 5), (JVal.str "C", 9)])], [], []⟩) := by
  refine ⟨fun f ex => rfl, ?_, fun bs => rfl, by decide, by decide⟩
  intro bs
  have hdef : decodeTerms (some "reverse_count") bs
      = List.insertionSort byCount (bs.map fun b => (b.key, b.doc_count)) := rfl
  rw [hdef]
  exact ⟨List.sorted_insertionSort byCount _, List.perm_insertionSort byCount _⟩

/-- C6: the date-histogram decoder divides every bucket key, a millisecond
epoch value, by 1000 before the timestamp conversion; key 1000000000000
decodes to the timestamp for epoch second 1000000000, a different
timestamp from the one for epoch second 1000000000000, also through the
whole decoder. -/
theorem claim_C6_ms_division :
    (∀ (k : Int) (c : Nat),
        decodeDates [⟨JVal.num k, c⟩] = some [(utcfromtimestamp ((k : Rat) / 1000), c)]) ∧
    decodeDates [⟨JVal.num 1000000000000, 7⟩] = some [(utcfromtimestamp 1000000000, 7)] ∧
    utcfromtimestamp 1000000000 ≠ utcfromtimestamp 1000000000000 ∧
    processResultsFacets ⟨some [("pub_date",
        ⟨"date_histogram", none, [⟨JVal.num 1000000000000, 7⟩], 0⟩)]⟩ =
      some (Facets.full ⟨[], [("pub_date", [(utcfromtimestamp 1000000000, 7)])], []⟩) := by
  have hdiv : (1000000000000 : Rat) / 1000 = 1000000000 := by norm_num
  refine ⟨fun k c => rfl, ?_, ?_, ?_⟩
  · simp [decodeDates, bucketKeySeconds]
    rw [hdiv]
  · simp only [utcfromtimestamp, ne_eq, UtcTimestamp.mk.injEq]
    norm_num
  · simp [processResultsFacets, decodeAggs, decodeDates, bucketKeySeconds, updateAssoc]
    rw [hdiv]

/-- C7: the similarity query is the bare more-like-this clause when no
narrowing query accumulates, and otherwise a bool clause whose must is the
more-like-this clause and whose filter is a bool/must group of all
narrowing queries; neither a missing additional query string, an empty
one, nor the match-everything sentinel contributes a narrowing query, and
a single type restriction produces the wrapped form. -/
theorem claim_C7_mlt_shapes :
    (∀ (f d : String) (aqs : Option String) (mc : List String),
        mltNarrowQueries aqs mc = [] →
        mlt_query_body f d aqs mc = Json.obj [("query", mlt_inner f d)]) ∧
    (∀ (f d : String) (aqs : Option String) (mc : List String) (q : Json) (qs : List Json),
        mltNarrowQueries aqs mc = q :: qs →
        mlt_query_body f d aqs mc = Json.obj [("query", Json.obj [("bool", Json.obj
          [("must", mlt_inner f d),
           ("filter", Json.obj [("bool", Json.obj [("must", Json.arr (q :: qs))])])])])]) ∧
    mltNarrowQueries none [] = [] ∧
    mltNarrowQueries (some "*:*") [] = [] ∧
    mltNarrowQueries (some "") [] = [] ∧
    (∀ (f d ct : String),
        mlt_query_body f d none [ct] = Json.obj [("query", Json.obj [("bool", Json.obj
          [("must", mlt_inner f d),
           ("filter", Json.obj [("bool", Json.obj
             [("must", Json.arr [model_filter [ct]])])])])])]) := by
  refine ⟨?_, ?_, rfl, rfl, rfl, fun f d ct => rfl⟩
  · intro f d aqs mc h
    simp [mlt_query_body, h]
  · intro f d aqs mc q qs h
    simp [mlt_query_body, h]

/-- C7 witness: the two general branches of claim_C7_mlt_shapes applied at
concrete inputs, with their narrowing-query hypotheses discharged by
computation. -/
theorem claim_C7_mlt_shapes_witness :
    mlt_query_body "text" "core.mockmodel.1" none [] =
      Json.obj [("query", mlt_inner "text" "core.mockmodel.1")] ∧
    mlt_query_body "text" "core.mockmodel.1" none ["core.mockmodel"] =
      Json.obj [("query", Json.obj [("bool", Json.obj
        [("must", mlt_inner "text" "core.mockmodel.1"),
         ("filter", Json.obj [("bool", Json.obj
           [("must", Json.arr [model_filter ["core.mockmodel"]])])])])])] :=
  ⟨claim_C7_mlt_shapes.1 "text" "core.mockmodel.1" none [] rfl,
   claim_C7_mlt_shapes.2.1 "text" "core.mockmodel.1" none ["core.mockmodel"]
     (model_filter ["core.mockmodel"]) [] rfl⟩

/-- C8: on a transport failure during a similarity query or a clear, the
error propagates when silently_fail is off (the spec-modelled default);
when it is on, more_like_this returns the result of processing an empty
raw response (an empty facets structure) and clear returns without raising
and without completing the deletion, for both the full and the subset
form. -/
theorem claim_C8_transport_policy :
    moreLikeThisRun silentlyFailDefault none = Outcome.raised ∧
    moreLikeThisRun true none = Outcome.ok (processResultsFacets emptyRawResults) ∧
    processResultsFacets emptyRawResults = some Facets.empty ∧
    (∀ (ms : List DjangoModel) (st : BackendState),
        clearRun silentlyFailDefault (some ms) Transport.fails st = Outcome.raised) ∧
    (∀ (ms : List DjangoModel) (st : BackendState),
        clearRun true (some ms) Transport.fails st = Outcome.ok (st, false)) ∧
    (∀ st : BackendState,
        clearRun silentlyFailDefault none Transport.fails st = Outcome.raised) ∧
    (∀ st : BackendState,
        clearRun true none Transport.fails st = Outcome.ok (st, false)) :=
  ⟨rfl, rfl, rfl, fun _ _ => rfl, fun _ _ => rfl, fun _ => rfl, fun _ => rfl⟩

/-- C9 counterexample: with silently_fail off, a subset clear against a
missing index raises (the scroll scan surfaces the 404 as a
TransportError and the except branch re-raises it), contradicting the
claim that the subset clear raises no error regardless of the silent-fail
configuration. -/
theorem claim_C9_counterexample :
    clearRun false (some [⟨"core", "mockmodel"⟩]) Transport.missingIndex
      ⟨false, [], none⟩ = Outcome.raised := rfl

/-- C9 amended: a full clear on a missing index is a no-op and not an
error under either silent-fail setting (the 404 of the index delete is
ignored and the cached schema/mapping state is still reset); a subsequent
subset clear on the missing index is a logged no-op only when
silently_fail is on, and raises the transport error when it is off. -/
theorem claim_C9_amended :
    (∀ (sf : Bool) (st : BackendState),
        clearRun sf none Transport.missingIndex st = Outcome.ok (clearedState, true)) ∧
    (∀ (ms : List DjangoModel) (st : BackendState),
        clearRun true (some ms) Transport.missingIndex st = Outcome.ok (st, false)) ∧
    (∀ (ms : List DjangoModel) (st : BackendState),
        clearRun false (some ms) Transport.missingIndex st = Outcome.raised) :=
  ⟨fun _ _ => rfl, fun _ _ => rfl, fun _ _ => rfl⟩

/-- C10: the aggregation decoder ignores every entry whose meta._type tag
is not terms, date_histogram or query - decoding a response equals
decoding the response with the unrecognized entries filtered out, so they
raise nothing and contribute nothing while recognized entries still
decode; concretely, an entry tagged "histogram" is dropped while a query
entry in the same response is decoded. -/
theorem claim_C10_unknown_ignored :
    (∀ (aggs : List (String × RawAgg)) (acc : FacetsStruct),
        decodeAggs aggs acc =
          decodeAggs (aggs.filter fun e => recognizedAggType e.2.metaType) acc) ∧
    processResultsFacets ⟨some [("bogus", ⟨"histogram", none, [⟨JVal.num 3, 1⟩], 4⟩),
                                ("q1", ⟨"query", none, [], 11⟩)]⟩ =
      some (Facets.full ⟨[], [], [("q1", 11)]⟩) := by
  constructor
  · intro aggs
    induction aggs with
    | nil => intro acc; rfl
    | cons e rest ih =>
      intro acc
      obtain ⟨name, info⟩ := e
      by_cases h1 : info.metaType = "terms"
      · simp [decodeAggs, List.filter_cons, recognizedAggType, h1, ih]
      · by_cases h2 : info.metaType = "date_histogram"
        · cases hd : decodeDates info.buckets with
          | some ds => simp [decodeAggs, List.filter_cons, recognizedAggType, h1, h2, hd, ih]
          | none => simp [decodeAggs, List.filter_cons, recognizedAggType, h1, h2, hd]
        · by_cases h3 : info.metaType = "query"
          · simp [decodeAggs, List.filter_cons, recognizedAggType, h1, h2, h3, ih]
          · simp [decodeAggs, List.filter_cons, recognizedAggType, h1, h2, h3, ih]
  · decide
